import Mathlib

/-!
Verification development for the cryptobot repository.

The Python source is shallowly embedded: pure functions become Lean
functions, database tables become lists of row structures, `NOW()` and the
random generator become explicit parameters (an oracle for each draw), and
network/telegram calls become explicit outcome values supplied to the
functions that react to them.  Timestamps are integers (minutes); user and
row ids are naturals.
-/

namespace Cryptobot

/-- Python `s.lstrip("@")`: remove every leading `@` character
(`services/logic.py`, `database/db.py`). -/
def lstripAt (s : String) : String :=
  String.mk (s.data.dropWhile (fun c => c == '@'))

/-- Python `str.lower()` on one character, restricted to ASCII (handles are
ASCII by the bot's validation regex). -/
def lowerChar (c : Char) : Char :=
  if 65 ≤ c.toNat ∧ c.toNat ≤ 90 then Char.ofNat (c.toNat + 32) else c

/-- Python `s.lower()` over a handle. -/
def strLower (s : String) : String :=
  String.mk (s.data.map lowerChar)

/-- The normalized cache key `username.lstrip("@").lower()` used by
`get_valuation` / `save_valuation` in `database/db.py`. -/
def normKey (s : String) : String :=
  strLower (lstripAt s)

/-- Python `round(n, -1)` on a nonnegative integer: round to the nearest
multiple of ten, ties going to the even multiple (banker's rounding).  Used
for `price_low = round(random.randint(1100, 3500), -1)` in
`services/logic.py`. -/
def pyRound10 (n : Int) : Int :=
  let q := n / 10
  let r := n % 10
  if r < 5 then 10 * q
  else if 5 < r then 10 * (q + 1)
  else if q % 2 = 0 then 10 * q else 10 * (q + 1)

/-- Python `random.choice(l)` with the random index made explicit. -/
def pyChoice (l : List String) (i : Nat) : String :=
  l.getD (i % l.length) ""

/-- `categories` list from `get_valuation_data` (`services/logic.py`). -/
def categories : List String :=
  ["Premium Real Word", "Crypto Native", "Corporate Brand",
   "Luxury Personal", "Web3 Identity", "Short & Concise",
   "Tech Startup", "Global Asset", "Visual Symmetric", "Investment Grade"]

/-- `rarities` list from `get_valuation_data`. -/
def rarities : List String :=
  ["High", "Very High", "Ultra Rare", "Exclusive",
   "Collector's Item", "Legendary", "Blue Chip", "Top Tier"]

/-- `demands` list from `get_valuation_data`. -/
def demands : List String :=
  ["Strong", "Very High", "Aggressive", "Trending Up",
   "Peak Interest", "Institutional", "Hot Market"]

/-- `brandings` list from `get_valuation_data`. -/
def brandings : List String :=
  ["Excellent", "Global", "Elite", "Unicorn Status",
   "International", "Corporate Grade", "Iconic"]

/-- The random draws consumed by one call to `get_valuation_data`.
`scoreStr` stands for the rendered string `str(round(random.uniform(8.2,
9.9), 1))`; no claim constrains the score value, so the rendered string is
taken as the oracle input. -/
structure RandomDraws where
  lowSample : Int
  offset : Int
  catIdx : Nat
  rarIdx : Nat
  demIdx : Nat
  brandIdx : Nat
  scoreStr : String
deriving Repr, DecidableEq

/-- A valuation report as returned by `get_valuation_data` and by the cache
read `get_valuation` (the dict with username/structure/.../price_high).
The Python `structure` key is spelled `structure_` because `structure` is a
Lean keyword. -/
structure Report where
  username : String
  structure_ : String
  category : String
  rarity : String
  demand : String
  score : String
  branding : String
  price_low : Int
  price_high : Int
deriving Repr, DecidableEq

/-- `get_valuation_data` from `services/logic.py`, with the random draws
made explicit. -/
def get_valuation_data (username : String) (d : RandomDraws) : Report :=
  let clean_username := lstripAt username
  let price_low := pyRound10 d.lowSample
  let price_high0 := price_low + d.offset
  let price_high := if price_high0 > 4500 then 4200 else price_high0
  { username := "@" ++ clean_username
    structure_ := toString clean_username.length ++ " characters"
    category := pyChoice categories d.catIdx
    rarity := pyChoice rarities d.rarIdx
    demand := pyChoice demands d.demIdx
    score := d.scoreStr
    branding := pyChoice brandings d.brandIdx
    price_low := price_low
    price_high := price_high }

/-- Result of the HTTP GET against `t.me/<username>`: either the request
raised an exception, or a response with a status code and body came back. -/
inductive HttpFetch where
  | err : HttpFetch
  | resp (status : Nat) (html : String) : HttpFetch
deriving Repr, DecidableEq

/-- `pat` occurs as a contiguous substring of `hay` (Python `pat in hay`). -/
def containsSub (hay pat : String) : Bool :=
  decide (pat.data <:+: hay.data)

/-- `check_username_exists` from `services/logic.py`, with the network
outcome made explicit: an exception yields `true` (skip the check), a
non-200 status yields `false`, otherwise the body is scanned for the two
profile markers. -/
def check_username_exists (r : HttpFetch) : Bool :=
  match r with
  | .err => true
  | .resp status html =>
    if status ≠ 200 then false
    else containsSub html "tgme_page_photo" || containsSub html "tgme_page_title"

/-- One row of the `username_valuations` cache table (everything but the
primary-key `username` column, which is the association key). -/
structure StoredValuation where
  structure_ : String
  category : String
  rarity : String
  demand : String
  score : String
  branding : String
  price_low : Int
  price_high : Int
deriving Repr, DecidableEq

/-- The `username_valuations` table: an association list keyed by the
normalized username (primary key). -/
abbrev ValuationCache := List (String × StoredValuation)

/-- Primary-key lookup in the cache table. -/
def cacheLookup (cache : ValuationCache) (key : String) : Option StoredValuation :=
  match cache with
  | [] => none
  | kv :: rest => if kv.1 = key then some kv.2 else cacheLookup rest key

/-- `Database.get_valuation` from `database/db.py`: normalize the handle,
look up the row, and rebuild the report dict with `username` set to
`"@" + clean_username`. -/
def get_valuation (cache : ValuationCache) (username : String) : Option Report :=
  match cacheLookup cache (normKey username) with
  | some row => some
      { username := "@" ++ normKey username
        structure_ := row.structure_
        category := row.category
        rarity := row.rarity
        demand := row.demand
        score := row.score
        branding := row.branding
        price_low := row.price_low
        price_high := row.price_high }
  | none => none

/-- The columns of a report as stored by `save_valuation`. -/
def rowOfReport (data : Report) : StoredValuation :=
  { structure_ := data.structure_
    category := data.category
    rarity := data.rarity
    demand := data.demand
    score := data.score
    branding := data.branding
    price_low := data.price_low
    price_high := data.price_high }

/-- A report with its username field replaced (used to compare the two
runs of the get-or-create path field by field). -/
def setUsername (r : Report) (u : String) : Report :=
  { username := u
    structure_ := r.structure_
    category := r.category
    rarity := r.rarity
    demand := r.demand
    score := r.score
    branding := r.branding
    price_low := r.price_low
    price_high := r.price_high }

/-- `Database.save_valuation` from `database/db.py`: insert under the
normalized key, `ON CONFLICT (username) DO NOTHING`. -/
def save_valuation (cache : ValuationCache) (data : Report) : ValuationCache :=
  match cacheLookup cache (normKey data.username) with
  | some _ => cache
  | none => cache ++ [(normKey data.username, rowOfReport data)]

/-- Python `s.startswith("@")`. -/
def startsWithAt (s : String) : Bool :=
  match s.data with
  | c :: _ => c == '@'
  | [] => false

/-- The handle as `evaluate_username` normalizes it on entry: prefix `@`
when missing. -/
def prefixAt (s : String) : String :=
  if startsWithAt s then s else "@" ++ s

/-- The get-or-create portion of `evaluate_username`
(`handlers/valuation.py` lines 42–74): prefix `@` if missing, consult the
cache, and on a miss generate a fresh report and persist it.  Validation
and message delivery do not affect the returned report and are omitted. -/
def evaluate_username_cached (cache : ValuationCache) (username0 : String)
    (d : RandomDraws) : Report × ValuationCache :=
  match get_valuation cache (prefixAt username0) with
  | some cached_data => (cached_data, cache)
  | none =>
    (get_valuation_data (prefixAt username0) d,
     save_valuation cache (get_valuation_data (prefixAt username0) d))

/-! ### Database state (`database/db.py`) -/

/-- One row of the `users` table, with the columns the verified operations
touch (`join_date` and `is_admin` are never read or written by them). -/
structure UserRow where
  user_id : Nat
  language : String
  username : Option String
  first_seen : Int
  last_activity : Int
  is_bot_blocked : Bool
  last_valuation_date : Option Int
  contacted_manager : Bool
  reminder_sent : Bool
deriving Repr, DecidableEq

/-- One row of the `events` table; `metadata` keeps the key/value pairs the
Python code JSON-encodes. -/
structure EventRow where
  id : Nat
  user_id : Nat
  event_type : String
  timestamp : Int
  metadata : List (String × String)
deriving Repr, DecidableEq

/-- One row of the `valuations` table. -/
structure ValuationRow where
  id : Nat
  user_id : Nat
  username_checked : String
  estimated_price : String
  valuation_date : Int
  manager_contacted : Bool
  reminder_sent : Bool
  reminder_sent_at : Option Int
deriving Repr, DecidableEq

/-- The database state: the tables the verified claims touch, plus the
sequence counters behind the BIGSERIAL primary keys. -/
structure DB where
  users : List UserRow
  events : List EventRow
  valuations : List ValuationRow
  settings : List (String × String)
  next_event_id : Nat
  next_valuation_id : Nat
deriving Repr, DecidableEq

/-- Row defaults of the `users` table (`_create_tables`). -/
def defaultUser (user_id : Nat) (now : Int) : UserRow :=
  { user_id := user_id, language := "en", username := none,
    first_seen := now, last_activity := now, is_bot_blocked := false,
    last_valuation_date := none, contacted_manager := false,
    reminder_sent := false }

/-- Whether a `users` row with this primary key exists. -/
def userExists (db : DB) (user_id : Nat) : Bool :=
  db.users.any (fun u => u.user_id == user_id)

/-- `Database.add_user`: `INSERT ... ON CONFLICT DO NOTHING`. -/
def add_user (db : DB) (user_id : Nat) (now : Int) : DB :=
  if userExists db user_id then db
  else { db with users := db.users ++ [defaultUser user_id now] }

/-- `Database.set_language`: `UPDATE users SET language ... WHERE user_id ...`. -/
def set_language (db : DB) (user_id : Nat) (lang : String) : DB :=
  { db with users := db.users.map (fun u =>
      if u.user_id == user_id then { u with language := lang } else u) }

/-- `Database.get_language`: the stored language, defaulting to `"en"`. -/
def get_language (db : DB) (user_id : Nat) : String :=
  match db.users.find? (fun u => u.user_id == user_id) with
  | some u => u.language
  | none => "en"

/-- `Database.add_event`: insert the event row, then
`UPDATE users SET last_activity = NOW() WHERE user_id = $1` (which touches
nothing when no such user row exists — there is no insert here). -/
def add_event (db : DB) (user_id : Nat) (event_type : String)
    (metadata : List (String × String)) (now : Int) : DB :=
  { db with
    events := db.events ++
      [{ id := db.next_event_id, user_id := user_id,
         event_type := event_type, timestamp := now, metadata := metadata }]
    next_event_id := db.next_event_id + 1
    users := db.users.map (fun u =>
      if u.user_id == user_id then { u with last_activity := now } else u) }

/-- `Database.update_user_info`. -/
def update_user_info (db : DB) (user_id : Nat) (username : Option String)
    (now : Int) : DB :=
  match username with
  | some name =>
    { db with users := db.users.map (fun u =>
        if u.user_id == user_id then
          { u with username := some name, last_activity := now } else u) }
  | none =>
    { db with users := db.users.map (fun u =>
        if u.user_id == user_id then { u with last_activity := now } else u) }

/-- `Database.create_valuation`: reset the user-level flags and stamp
`last_valuation_date`, then insert a fresh valuation row with both flags
false. -/
def create_valuation (db : DB) (user_id : Nat) (username_checked : String)
    (estimated_price : String) (now : Int) : DB :=
  { db with
    users := db.users.map (fun u =>
      if u.user_id == user_id then
        { u with last_valuation_date := some now, contacted_manager := false,
                 reminder_sent := false } else u)
    valuations := db.valuations ++
      [{ id := db.next_valuation_id, user_id := user_id,
         username_checked := username_checked,
         estimated_price := estimated_price, valuation_date := now,
         manager_contacted := false, reminder_sent := false,
         reminder_sent_at := none }]
    next_valuation_id := db.next_valuation_id + 1 }

/-- `Database.mark_manager_contacted`: set the user-level flag and flip
`manager_contacted` on every still-open valuation of that user. -/
def mark_manager_contacted (db : DB) (user_id : Nat) : DB :=
  { db with
    users := db.users.map (fun u =>
      if u.user_id == user_id then { u with contacted_manager := true } else u)
    valuations := db.valuations.map (fun v =>
      if v.user_id == user_id && !v.manager_contacted then
        { v with manager_contacted := true } else v) }

/-- The row, if any, with the latest `valuation_date` — first such row in
table order on ties, matching the unconstrained tie-break of
`ORDER BY valuation_date DESC LIMIT 1` / `DISTINCT ON`. -/
def latestValuation (vs : List ValuationRow) : Option ValuationRow :=
  vs.foldl (fun acc v =>
    match acc with
    | none => some v
    | some w => if v.valuation_date > w.valuation_date then some v else some w)
    none

/-- `Database.mark_reminder_sent`: set the user-level flag, and stamp the
single most recent valuation of the user that still has both flags
false. -/
def mark_reminder_sent (db : DB) (user_id : Nat) (now : Int) : DB :=
  { db with
    users := db.users.map (fun u =>
      if u.user_id == user_id then { u with reminder_sent := true } else u)
    valuations :=
      match latestValuation (db.valuations.filter (fun v =>
          v.user_id == user_id && !v.reminder_sent &&
            !v.manager_contacted)) with
      | some t => db.valuations.map (fun v =>
          if v.id == t.id then
            { v with reminder_sent := true, reminder_sent_at := some now }
          else v)
      | none => db.valuations }

/-- `Database.mark_user_blocked`. -/
def mark_user_blocked (db : DB) (user_id : Nat) : DB :=
  { db with users := db.users.map (fun u =>
      if u.user_id == user_id then { u with is_bot_blocked := true } else u) }

/-- `Database.mark_user_unblocked`. -/
def mark_user_unblocked (db : DB) (user_id : Nat) : DB :=
  { db with users := db.users.map (fun u =>
      if u.user_id == user_id then { u with is_bot_blocked := false } else u) }

/-- Primary-key lookup in the `system_settings` table. -/
def settingLookup (settings : List (String × String)) (key : String) :
    Option String :=
  match settings with
  | [] => none
  | kv :: rest => if kv.1 = key then some kv.2 else settingLookup rest key

/-- `Database.get_system_setting`; the Python `default` parameter is made
required because every call under verification supplies one. -/
def get_system_setting (db : DB) (key : String) (dflt : String) : String :=
  (settingLookup db.settings key).getD dflt

/-- `Database.set_system_setting`: upsert, last writer wins. -/
def set_system_setting (db : DB) (key : String) (value : String) : DB :=
  if (settingLookup db.settings key).isSome then
    { db with settings := db.settings.map (fun kv =>
        if kv.1 = key then (kv.1, value) else kv) }
  else
    { db with settings := db.settings ++ [(key, value)] }

/-- The WHERE clause of `get_users_for_reminder` on one valuation row:
created more than `delay_minutes` before `now`, neither flag set. -/
def qualifies (now delay_minutes : Int) (v : ValuationRow) : Bool :=
  v.valuation_date < now - delay_minutes && !v.manager_contacted &&
    !v.reminder_sent

/-- One row of the `SELECT DISTINCT ON (u.user_id) ...` reminder query. -/
structure ReminderRow where
  user_id : Nat
  username : Option String
  valuation_id : Nat
  valuation_date : Int
deriving Repr, DecidableEq

/-- The contribution of one user row to the reminder query: nothing when
the user is blocked or has no qualifying valuation, otherwise the single
most recent qualifying valuation (the `DISTINCT ON (u.user_id) ... ORDER
BY u.user_id, v.valuation_date DESC` pick). -/
def reminderRowFor (db : DB) (delay_minutes now : Int) (u : UserRow) :
    Option ReminderRow :=
  if u.is_bot_blocked then none
  else
    match latestValuation (db.valuations.filter (fun v =>
        v.user_id == u.user_id && qualifies now delay_minutes v)) with
    | some v => some { user_id := u.user_id, username := u.username,
                       valuation_id := v.id,
                       valuation_date := v.valuation_date }
    | none => none

/-- `Database.get_users_for_reminder`: for each non-blocked user, the most
recent valuation satisfying the WHERE clause, if any.  The SQL orders rows
by `user_id`; the verified claims are order-independent, so rows are
produced in users-table order. -/
def get_users_for_reminder (db : DB) (delay_minutes : Int) (now : Int) :
    List ReminderRow :=
  db.users.filterMap (reminderRowFor db delay_minutes now)

/-- Whether a user row sorts into the has-username group of
`get_users_list` (`username IS NOT NULL AND username != ''`). -/
def hasUsernameSet (u : UserRow) : Bool :=
  match u.username with
  | some s => s ≠ ""
  | none => false

/-- The `ORDER BY` of `get_users_list`: has-username first, then
`last_activity` descending (as a before-or-equal relation). -/
def userListLE (a b : UserRow) : Bool :=
  if hasUsernameSet a ≠ hasUsernameSet b then hasUsernameSet a
  else b.last_activity ≤ a.last_activity

/-- `Database.get_users_list`: sort by the display order, then apply
`LIMIT $1 OFFSET $2`.  The SQL projects a subset of columns plus an event
count; the whole row is returned here since pagination is what is
verified. -/
def db_get_users_list (db : DB) (limit offset : Nat) : List UserRow :=
  ((List.insertionSort (fun a b => userListLE a b = true) db.users).drop
    offset).take limit

/-- `Database.get_total_users`. -/
def get_total_users (db : DB) : Nat :=
  db.users.length

/-- `Database.get_active_users_for_broadcast`: all non-blocked users,
`ORDER BY user_id`. -/
def get_active_users_for_broadcast (db : DB) : List UserRow :=
  List.insertionSort (fun a b => a.user_id ≤ b.user_id)
    (db.users.filter (fun u => !u.is_bot_blocked))

/-! ### Analytics service (`services/analytics.py`) -/

/-- The dict returned by `AnalyticsService.get_users_list`. -/
structure UsersListPage where
  users : List UserRow
  total_count : Nat
  page : Nat
  page_size : Nat
  total_pages : Nat
deriving Repr, DecidableEq

/-- `AnalyticsService.get_users_list`: 1-indexed page over the sorted user
listing, with ceiling-division page count. -/
def analytics_get_users_list (db : DB) (page page_size : Nat) :
    UsersListPage :=
  let offset := (page - 1) * page_size
  let users := db_get_users_list db page_size offset
  let total_count := get_total_users db
  let total_pages := (total_count + page_size - 1) / page_size
  { users := users, total_count := total_count, page := page,
    page_size := page_size, total_pages := total_pages }

/-! ### Broadcast service (`services/broadcast_service.py`) -/

/-- Outcome of one outbound telegram send, made explicit: delivered, the
recipient has blocked the bot (`TelegramForbiddenError`), a bad request, or
any other exception. -/
inductive SendOutcome where
  | delivered : SendOutcome
  | forbidden : SendOutcome
  | badRequest : SendOutcome
  | otherError : SendOutcome
deriving Repr, DecidableEq

/-- `BroadcastService.send_broadcast_message`: returns `(success, error)`
and marks the user blocked on `TelegramForbiddenError`; every outcome is
caught, nothing propagates. -/
def send_broadcast_message (db : DB) (user_id : Nat)
    (outcome : SendOutcome) : DB × Bool × Option String :=
  match outcome with
  | .delivered => (db, true, none)
  | .forbidden => (mark_user_blocked db user_id, false, some "blocked")
  | .badRequest => (db, false, some "bad_request")
  | .otherError => (db, false, some "error")

/-- Aggregate counts returned by `execute_broadcast`. -/
structure BroadcastStats where
  total : Nat
  success : Nat
  blocked : Nat
  failed : Nat
deriving Repr, DecidableEq

/-- The per-recipient loop body of `execute_broadcast`, threading the
database and the three buckets. -/
def broadcastLoop (outcomes : Nat → SendOutcome) (users : List UserRow)
    (db : DB) (success blocked failed : Nat) : DB × Nat × Nat × Nat :=
  match users with
  | [] => (db, success, blocked, failed)
  | u :: rest =>
    let r := send_broadcast_message db u.user_id (outcomes u.user_id)
    if r.2.1 then broadcastLoop outcomes rest r.1 (success + 1) blocked failed
    else if r.2.2 == some "blocked" then
      broadcastLoop outcomes rest r.1 success (blocked + 1) failed
    else broadcastLoop outcomes rest r.1 success blocked (failed + 1)

/-- `BroadcastService.execute_broadcast`: snapshot the non-blocked users,
deliver to each in turn (delivery outcomes supplied by the oracle), and
return `{total, success, blocked, failed}`. -/
def execute_broadcast (db : DB) (outcomes : Nat → SendOutcome) :
    DB × BroadcastStats :=
  let users := get_active_users_for_broadcast db
  let total := users.length
  let r := broadcastLoop outcomes users db 0 0 0
  (r.1, { total := total, success := r.2.1, blocked := r.2.2.1,
          failed := r.2.2.2 })

/-! ### Python `int(str)` and the reminder pipeline
(`services/reminder_service.py`, `main.py`) -/

/-- Whitespace stripped by Python `int(str)`. -/
def isPyWs (c : Char) : Bool :=
  c == ' ' || c == '\t' || c == '\n' || c == '\r' || c == '\x0b' || c == '\x0c'

/-- Strip leading and trailing whitespace. -/
def stripChars (cs : List Char) : List Char :=
  ((cs.dropWhile isPyWs).reverse.dropWhile isPyWs).reverse

/-- Numeric value of an ASCII digit. -/
def digitVal (c : Char) : Nat :=
  c.toNat - 48

/-- Digit tail of a Python integer literal: digits with single underscores
allowed between digits only. -/
def digitsCore : Nat → List Char → Option Nat
  | acc, [] => some acc
  | acc, '_' :: d :: rest =>
    if d.isDigit then digitsCore (acc * 10 + digitVal d) rest else none
  | _, ['_'] => none
  | acc, c :: rest =>
    if c.isDigit then digitsCore (acc * 10 + digitVal c) rest else none

/-- A nonempty digit sequence (underscores between digits allowed). -/
def parseDigits : List Char → Option Nat
  | [] => none
  | c :: rest => if c.isDigit then digitsCore (digitVal c) rest else none

/-- Python `int(s)` for a string argument: strip whitespace, optional sign,
then a digit sequence; `none` models `ValueError`. -/
def pyParseInt (s : String) : Option Int :=
  match stripChars s.data with
  | '+' :: rest => (parseDigits rest).map (fun n => (n : Int))
  | '-' :: rest => (parseDigits rest).map (fun n => -(n : Int))
  | cs => (parseDigits cs).map (fun n => (n : Int))

/-- The interval parse at the top of each `reminder_task` iteration
(`main.py` lines 47–52): `int()` of the stored value, `ValueError` caught
with default 1 and a logged warning (the Bool). -/
def parse_interval (db : DB) : Int × Bool :=
  match pyParseInt (get_system_setting db "reminder_check_interval" "1") with
  | some n => (n, false)
  | none => (1, true)

/-- The delay parse in `ReminderService.check_pending_reminders`
(`services/reminder_service.py` lines 23–28): default 15 on `ValueError`,
with a logged warning (the Bool). -/
def parse_delay (db : DB) : Int × Bool :=
  match pyParseInt (get_system_setting db "reminder_delay_minutes" "15") with
  | some n => (n, false)
  | none => (15, true)

/-- `ReminderService.check_pending_reminders`: parse the delay, then run
the selection query. -/
def check_pending_reminders (db : DB) (now : Int) : List ReminderRow :=
  get_users_for_reminder db (parse_delay db).1 now

/-- Observable outcome of one iteration of the `while True` loop in
`reminder_task` (`main.py`). -/
structure TickResult where
  last_check_time : Option Int
  didCheck : Bool
  interval_minutes : Int
  warned : Bool
deriving Repr, DecidableEq

/-- One iteration of the `reminder_task` loop body: re-read and parse the
check interval from the settings store, then check iff this is the first
iteration or the elapsed time since the last check reaches the interval.
The `.env` sync step only pushes file contents into the settings store and
is modelled at the call sites that need it; the reminder processing itself
is `check_pending_reminders`/`process_reminders` below. -/
def reminderShouldCheck (db : DB) (last_check_time : Option Int)
    (now : Int) : Bool :=
  match last_check_time with
  | none => true
  | some t => decide ((parse_interval db).1 ≤ now - t)

/-- The branch of the loop body on `should_check` (see `reminderShouldCheck`
for the re-read interval comparison). -/
def reminderTick (db : DB) (last_check_time : Option Int) (now : Int) :
    TickResult :=
  if reminderShouldCheck db last_check_time now then
    { last_check_time := some now, didCheck := true,
      interval_minutes := (parse_interval db).1,
      warned := (parse_interval db).2 }
  else
    { last_check_time := last_check_time, didCheck := false,
      interval_minutes := (parse_interval db).1,
      warned := (parse_interval db).2 }

/-- The loop of `reminder_task`, threading `last_check_time` across
iterations at the given wall-clock instants. -/
def tickSeq (db : DB) (last : Option Int) : List Int → List TickResult
  | [] => []
  | t :: rest =>
    let r := reminderTick db last t
    r :: tickSeq db r.last_check_time rest

/-- The entry of `reminder_task` (`main.py` lines 25–27): when the
`REMINDER_ENABLED` process-configuration constant is false the coroutine
returns before the loop starts, so no iteration ever runs. -/
def reminder_task_ticks (reminder_enabled : Bool) (db : DB)
    (times : List Int) : List TickResult :=
  if reminder_enabled then tickSeq db none times else []

/-! ### Database mutations as a closed operation type

Used to state that a property persists across any sequence of database
operations of the repository (until a designated one occurs). -/

/-- One call to a mutating method of `Database` (`database/db.py`), with
`NOW()` explicit. -/
inductive DbOp where
  | opAddUser (user_id : Nat) (now : Int) : DbOp
  | opSetLanguage (user_id : Nat) (lang : String) : DbOp
  | opAddEvent (user_id : Nat) (event_type : String)
      (metadata : List (String × String)) (now : Int) : DbOp
  | opUpdateUserInfo (user_id : Nat) (username : Option String)
      (now : Int) : DbOp
  | opCreateValuation (user_id : Nat)
      (username_checked estimated_price : String) (now : Int) : DbOp
  | opMarkManagerContacted (user_id : Nat) : DbOp
  | opMarkReminderSent (user_id : Nat) (now : Int) : DbOp
  | opMarkUserBlocked (user_id : Nat) : DbOp
  | opMarkUserUnblocked (user_id : Nat) : DbOp
  | opSetSystemSetting (key value : String) : DbOp
deriving Repr, DecidableEq

/-- Interpretation of one operation. -/
def applyOp (db : DB) : DbOp → DB
  | .opAddUser uid now => add_user db uid now
  | .opSetLanguage uid lang => set_language db uid lang
  | .opAddEvent uid ty md now => add_event db uid ty md now
  | .opUpdateUserInfo uid name now => update_user_info db uid name now
  | .opCreateValuation uid checked price now =>
      create_valuation db uid checked price now
  | .opMarkManagerContacted uid => mark_manager_contacted db uid
  | .opMarkReminderSent uid now => mark_reminder_sent db uid now
  | .opMarkUserBlocked uid => mark_user_blocked db uid
  | .opMarkUserUnblocked uid => mark_user_unblocked db uid
  | .opSetSystemSetting key value => set_system_setting db key value

/-- A sequence of operations, applied left to right. -/
def applyOps (db : DB) (ops : List DbOp) : DB :=
  ops.foldl applyOp db

/-- Whether an operation is `create_valuation` for the given user (the one
operation that opens a fresh valuation). -/
def isCreateValuationFor (uid : Nat) : DbOp → Bool
  | .opCreateValuation u _ _ _ => u == uid
  | _ => false

/-! ### Concrete fixtures used by witnesses and counterexamples -/

/-- An empty database, as `_create_tables` leaves a fresh store (default
settings omitted — the relevant claims supply their own). -/
def dbEmpty : DB :=
  { users := [], events := [], valuations := [], settings := [],
    next_event_id := 1, next_valuation_id := 1 }

/-- Random draws used by the C4 run. -/
def drawsC4a : RandomDraws :=
  { lowSample := 2345, offset := 700, catIdx := 0, rarIdx := 0, demIdx := 0,
    brandIdx := 0, scoreStr := "9.1" }

/-- Random draws used by the second C4 run (the cache must ignore them). -/
def drawsC4b : RandomDraws :=
  { lowSample := 1200, offset := 500, catIdx := 1, rarIdx := 1, demIdx := 1,
    brandIdx := 1, scoreStr := "8.4" }

/-- Random draws used by the C7 witness. -/
def drawsC7 : RandomDraws :=
  { lowSample := 2345, offset := 700, catIdx := 2, rarIdx := 3, demIdx := 4,
    brandIdx := 5, scoreStr := "8.7" }

/-- Settings store for the C1 counterexample: the operator has switched the
enabled flag off in the Settings Store. -/
def dbC1 : DB :=
  { dbEmpty with settings :=
      [("reminder_enabled", "false"), ("reminder_check_interval", "1")] }

/-- C2 witness user. -/
def userC2 : UserRow :=
  { user_id := 7, language := "en", username := some "bob", first_seen := 0,
    last_activity := 0, is_bot_blocked := false,
    last_valuation_date := some 10, contacted_manager := false,
    reminder_sent := false }

/-- C2 witness valuation. -/
def valC2 : ValuationRow :=
  { id := 1, user_id := 7, username_checked := "@bob",
    estimated_price := "$1200 - $1700", valuation_date := 10,
    manager_contacted := false, reminder_sent := false,
    reminder_sent_at := none }

/-- C2 witness database. -/
def dbC2 : DB :=
  { users := [userC2], events := [], valuations := [valC2], settings := [],
    next_event_id := 1, next_valuation_id := 2 }

/-- C5 witness database: user 7 has two open valuations. -/
def dbC5 : DB :=
  { users := [{ user_id := 7, language := "en", username := some "bob",
                first_seen := 0, last_activity := 0, is_bot_blocked := false,
                last_valuation_date := some 12, contacted_manager := false,
                reminder_sent := false }],
    events := [],
    valuations :=
      [{ id := 1, user_id := 7, username_checked := "@bob",
         estimated_price := "$1200 - $1700", valuation_date := 10,
         manager_contacted := false, reminder_sent := false,
         reminder_sent_at := none },
       { id := 2, user_id := 7, username_checked := "@bobby",
         estimated_price := "$1500 - $2000", valuation_date := 12,
         manager_contacted := false, reminder_sent := false,
         reminder_sent_at := none }],
    settings := [], next_event_id := 1, next_valuation_id := 3 }

/-- C5 witness operation sequence: everything but a fresh valuation for
user 7. -/
def opsC5 : List DbOp :=
  [.opMarkReminderSent 7 20, .opAddEvent 7 "contact_manager" [] 21,
   .opMarkUserUnblocked 7, .opCreateValuation 9 "@carol" "$1000 - $1500" 22,
   .opSetSystemSetting "reminder_delay_minutes" "30"]

/-- C6 counterexample database: one user, already blocked before the
broadcast. -/
def dbC6 : DB :=
  { dbEmpty with users :=
      [{ user_id := 1, language := "en", username := some "ann",
         first_seen := 0, last_activity := 0, is_bot_blocked := true,
         last_valuation_date := none, contacted_manager := false,
         reminder_sent := false }] }

/-- C8 fixture user `i` (all named, activity decreasing in `i`, so the
display order is `user_id` ascending). -/
def mkUserC8 (i : Nat) : UserRow :=
  { user_id := i, language := "en", username := some ("u" ++ toString i),
    first_seen := 0, last_activity := 1000 - (i : Int),
    is_bot_blocked := false, last_valuation_date := none,
    contacted_manager := false, reminder_sent := false }

/-- C8 fixture database: a 25-user store. -/
def dbC8 : DB :=
  { dbEmpty with users := (List.range 25).map (fun i => mkUserC8 (i + 1)) }

/-- C9 witness database: only the check-interval value is unparseable. -/
def dbC9a : DB :=
  { dbEmpty with settings :=
      [("reminder_check_interval", "abc"), ("reminder_delay_minutes", "15")] }

/-- C9 witness database: only the reminder-delay value is unparseable. -/
def dbC9b : DB :=
  { dbEmpty with settings :=
      [("reminder_check_interval", "1"), ("reminder_delay_minutes", "15.0")] }

/-! ## Helper lemmas -/

theorem pyRound10_spec (n : Int) :
    (pyRound10 n = 10 * (n / 10) ∧ n % 10 ≤ 5) ∨
    (pyRound10 n = 10 * (n / 10) + 10 ∧ 5 ≤ n % 10) := by
  dsimp only [pyRound10]
  split_ifs <;> omega

theorem settingLookup_map_set (l : List (String × String)) (k v k' : String)
    (h : k' ≠ k) :
    settingLookup (l.map fun kv => if kv.1 = k then (kv.1, v) else kv) k'
      = settingLookup l k' := by
  induction l with
  | nil => rfl
  | cons kv rest ih =>
    by_cases hk : kv.1 = k
    · have hkk : ¬k = k' := fun he => h he.symm
      simp [settingLookup, hk, hkk, ih]
    · simp [settingLookup, hk, ih]

theorem settingLookup_append_single_ne (l : List (String × String))
    (k v k' : String) (h : k' ≠ k) :
    settingLookup (l ++ [(k, v)]) k' = settingLookup l k' := by
  induction l with
  | nil =>
    have hne : ¬k = k' := fun he => h he.symm
    simp [settingLookup, hne]
  | cons kv rest ih =>
    simp only [List.cons_append, settingLookup, List.append_eq, ih]

theorem settingLookup_set_ne (db : DB) (k v k' : String) (h : k' ≠ k) :
    settingLookup (set_system_setting db k v).settings k'
      = settingLookup db.settings k' := by
  unfold set_system_setting
  by_cases hs : (settingLookup db.settings k).isSome
  · simp only [if_pos hs]
    exact settingLookup_map_set db.settings k v k' h
  · simp only [if_neg hs]
    exact settingLookup_append_single_ne db.settings k v k' h

theorem map_user_id_of_update (l : List UserRow) (f : UserRow → UserRow)
    (hf : ∀ u, (f u).user_id = u.user_id) :
    (l.map f).map UserRow.user_id = l.map UserRow.user_id := by
  induction l with
  | nil => rfl
  | cons u rest ih => simp only [List.map_cons, hf, ih]

theorem tickSeq_length (db : DB) :
    ∀ (times : List Int) (last : Option Int),
      (tickSeq db last times).length = times.length := by
  intro times
  induction times with
  | nil => intro last; rfl
  | cons t rest ih => intro last; simp only [tickSeq, List.length_cons, ih]

theorem dropWhile_dropWhile (p : Char → Bool) (l : List Char) :
    (l.dropWhile p).dropWhile p = l.dropWhile p := by
  induction l with
  | nil => rfl
  | cons a l ih =>
    by_cases h : p a <;> simp [List.dropWhile_cons, h, ih]

theorem lstripAt_append_at (s : String) :
    lstripAt ("@" ++ s) = lstripAt s := by
  unfold lstripAt
  have hdata : ("@" ++ s).data = '@' :: s.data := by
    simp [String.data_append]
  rw [hdata]
  simp [List.dropWhile_cons]

theorem lstripAt_lstripAt (s : String) :
    lstripAt (lstripAt s) = lstripAt s := by
  unfold lstripAt
  simp only
  rw [dropWhile_dropWhile]

theorem lstripAt_prefixed (s : String) :
    lstripAt (prefixAt s) = lstripAt s := by
  unfold prefixAt
  by_cases h : startsWithAt s <;> simp [h, lstripAt_append_at]

theorem normKey_prefixed (s : String) :
    normKey (prefixAt s) = normKey s := by
  unfold normKey
  rw [lstripAt_prefixed]

theorem cacheLookup_append_of_none (l : ValuationCache) (k : String)
    (v : StoredValuation) (h : cacheLookup l k = none) :
    cacheLookup (l ++ [(k, v)]) k = some v := by
  induction l with
  | nil => simp [cacheLookup]
  | cons kv rest ih =>
    by_cases hk : kv.1 = k
    · simp [cacheLookup, hk] at h
    · simp only [cacheLookup, hk, if_false] at h
      simp only [List.cons_append, cacheLookup, hk, if_false, List.append_eq]
      exact ih h

theorem latestValuation_aux (vs : List ValuationRow) :
    ∀ w : ValuationRow, ∃ v,
      vs.foldl (fun acc v =>
        match acc with
        | none => some v
        | some u =>
          if v.valuation_date > u.valuation_date then some v else some u)
        (some w) = some v ∧
      (v = w ∨ v ∈ vs) ∧ w.valuation_date ≤ v.valuation_date ∧
      ∀ x ∈ vs, x.valuation_date ≤ v.valuation_date := by
  induction vs with
  | nil =>
    intro w
    exact ⟨w, rfl, Or.inl rfl, le_refl _, by intro x hx; cases hx⟩
  | cons a rest ih =>
    intro w
    by_cases h : a.valuation_date > w.valuation_date
    · obtain ⟨v, hfold, hmem, hle, hall⟩ := ih a
      refine ⟨v, ?_, ?_, ?_, ?_⟩
      · simpa [List.foldl_cons, h] using hfold
      · cases hmem with
        | inl he => exact Or.inr (he ▸ List.mem_cons_self a rest)
        | inr hm => exact Or.inr (List.mem_cons_of_mem a hm)
      · omega
      · intro x hx
        cases List.mem_cons.mp hx with
        | inl he => exact he ▸ hle
        | inr hm => exact hall x hm
    · obtain ⟨v, hfold, hmem, hle, hall⟩ := ih w
      refine ⟨v, ?_, ?_, hle, ?_⟩
      · simpa [List.foldl_cons, h] using hfold
      · cases hmem with
        | inl he => exact Or.inl he
        | inr hm => exact Or.inr (List.mem_cons_of_mem a hm)
      · intro x hx
        cases List.mem_cons.mp hx with
        | inl he => subst he; omega
        | inr hm => exact hall x hm

theorem latestValuation_spec (vs : List ValuationRow) (v : ValuationRow)
    (h : latestValuation vs = some v) :
    v ∈ vs ∧ ∀ x ∈ vs, x.valuation_date ≤ v.valuation_date := by
  cases vs with
  | nil => cases h
  | cons a rest =>
    obtain ⟨v', hfold, hmem, hle, hall⟩ := latestValuation_aux rest a
    have hv : latestValuation (a :: rest) = some v' := hfold
    rw [h] at hv
    obtain rfl : v = v' := by injection hv
    refine ⟨?_, ?_⟩
    · cases hmem with
      | inl he => exact he ▸ List.mem_cons_self a rest
      | inr hm => exact List.mem_cons_of_mem a hm
    · intro x hx
      cases List.mem_cons.mp hx with
      | inl he => exact he ▸ hle
      | inr hm => exact hall x hm

theorem latestValuation_isSome (vs : List ValuationRow) (h : vs ≠ []) :
    ∃ v, latestValuation vs = some v := by
  cases vs with
  | nil => exact absurd rfl h
  | cons a rest =>
    obtain ⟨v, hfold, _⟩ := latestValuation_aux rest a
    exact ⟨v, hfold⟩

theorem reminderRowFor_some_iff (db : DB) (delay now : Int) (u : UserRow)
    (r : ReminderRow) :
    reminderRowFor db delay now u = some r ↔
    u.is_bot_blocked = false ∧ ∃ v,
      latestValuation (db.valuations.filter (fun v =>
        v.user_id == u.user_id && qualifies now delay v)) = some v ∧
      r = { user_id := u.user_id, username := u.username,
            valuation_id := v.id, valuation_date := v.valuation_date } := by
  unfold reminderRowFor
  by_cases hb : u.is_bot_blocked
  · simp [hb]
  · simp only [if_neg hb, Bool.not_eq_true] at hb ⊢
    cases hl : latestValuation (db.valuations.filter (fun v =>
        v.user_id == u.user_id && qualifies now delay v)) with
    | none =>
      simp only [hb, true_and]
      constructor
      · intro he; cases he
      · rintro ⟨v, hv, _⟩; cases hv
    | some v =>
      simp only [hb, true_and]
      constructor
      · intro he
        injection he with he
        exact ⟨v, rfl, he.symm⟩
      · rintro ⟨v', hv', rfl⟩
        obtain rfl : v = v' := by injection hv'
        rfl

theorem qualifies_iff (now delay : Int) (v : ValuationRow) :
    qualifies now delay v = true ↔
    v.valuation_date < now - delay ∧ v.manager_contacted = false ∧
      v.reminder_sent = false := by
  unfold qualifies
  simp [Bool.and_eq_true, and_assoc]

theorem reminder_map_sublist (db : DB) (delay now : Int) :
    ((get_users_for_reminder db delay now).map ReminderRow.user_id).Sublist
      (db.users.map UserRow.user_id) := by
  unfold get_users_for_reminder
  generalize db.users = l
  induction l with
  | nil => simp
  | cons u rest ih =>
    rw [List.filterMap_cons]
    cases hf : reminderRowFor db delay now u with
    | none =>
      simp only [List.map_cons]
      exact ih.cons _
    | some r =>
      have hrid : r.user_id = u.user_id := by
        obtain ⟨-, v, -, rfl⟩ := (reminderRowFor_some_iff db delay now u
          r).mp hf
        rfl
      simp only [List.map_cons, hrid]
      exact ih.cons₂ _

theorem broadcastLoop_sum (outcomes : Nat → SendOutcome) :
    ∀ (users : List UserRow) (db : DB) (s b f : Nat),
      (broadcastLoop outcomes users db s b f).2.1 +
        (broadcastLoop outcomes users db s b f).2.2.1 +
        (broadcastLoop outcomes users db s b f).2.2.2
      = s + b + f + users.length := by
  intro users
  induction users with
  | nil => intro db s b f; simp [broadcastLoop]
  | cons u rest ih =>
    intro db s b f
    cases h : outcomes u.user_id <;>
      simp [broadcastLoop, send_broadcast_message, h, ih] <;> omega

theorem all_contacted_mark (db : DB) (uid : Nat) :
    ∀ v ∈ (mark_manager_contacted db uid).valuations, v.user_id = uid →
      v.manager_contacted = true := by
  intro v hv hvu
  obtain ⟨w, hw, rfl⟩ := List.mem_map.mp hv
  by_cases hc : (w.user_id == uid && !w.manager_contacted) = true
  · rw [if_pos hc]
  · rw [if_neg hc] at hvu ⊢
    cases hcm : w.manager_contacted with
    | true => rfl
    | false =>
      exfalso
      apply hc
      rw [Bool.and_eq_true, beq_iff_eq, Bool.not_eq_true']
      exact ⟨hvu, hcm⟩

theorem not_selected_of_all_contacted (db : DB) (uid : Nat)
    (h : ∀ v ∈ db.valuations, v.user_id = uid → v.manager_contacted = true) :
    ∀ delay now r, r ∈ get_users_for_reminder db delay now →
      r.user_id ≠ uid := by
  intro delay now r hr hru
  obtain ⟨u', hu', hf⟩ := List.mem_filterMap.mp hr
  obtain ⟨hb, v, hl, rfl⟩ := (reminderRowFor_some_iff db delay now u' r).mp hf
  have hvf := (latestValuation_spec _ _ hl).1
  rw [List.mem_filter, Bool.and_eq_true, beq_iff_eq] at hvf
  obtain ⟨hv, hvu, hq⟩ := hvf
  obtain ⟨-, hmc, -⟩ := (qualifies_iff _ _ v).mp hq
  have htrue : v.manager_contacted = true := h v hv (by rw [hvu]; exact hru)
  rw [hmc] at htrue
  cases htrue

theorem all_contacted_applyOp (uid : Nat) (db : DB) (op : DbOp)
    (hop : isCreateValuationFor uid op = false)
    (h : ∀ v ∈ db.valuations, v.user_id = uid → v.manager_contacted = true) :
    ∀ v ∈ (applyOp db op).valuations, v.user_id = uid →
      v.manager_contacted = true := by
  cases op with
  | opAddUser uid' now =>
    intro v hv hvu
    have hv' : v ∈ (add_user db uid' now).valuations := hv
    unfold add_user at hv'
    split_ifs at hv' <;> exact h v hv' hvu
  | opSetLanguage uid' lang =>
    intro v hv hvu
    exact h v hv hvu
  | opAddEvent uid' ty md now =>
    intro v hv hvu
    exact h v hv hvu
  | opUpdateUserInfo uid' name now =>
    cases name with
    | none => intro v hv hvu; exact h v hv hvu
    | some s => intro v hv hvu; exact h v hv hvu
  | opCreateValuation uid' checked price now =>
    intro v hv hvu
    have hne : uid' ≠ uid := by
      simpa [isCreateValuationFor] using hop
    rcases List.mem_append.mp hv with hm | hm
    · exact h v hm hvu
    · rw [List.mem_singleton] at hm
      subst hm
      exact absurd hvu hne
  | opMarkManagerContacted uid' =>
    intro v hv hvu
    obtain ⟨w, hw, rfl⟩ := List.mem_map.mp hv
    by_cases hc : (w.user_id == uid' && !w.manager_contacted) = true
    · rw [if_pos hc]
    · rw [if_neg hc] at hvu ⊢
      exact h w hw hvu
  | opMarkReminderSent uid' now =>
    intro v hv hvu
    have hv' : v ∈ (mark_reminder_sent db uid' now).valuations := hv
    unfold mark_reminder_sent at hv'
    dsimp only at hv'
    cases htgt : latestValuation (db.valuations.filter (fun v =>
        v.user_id == uid' && !v.reminder_sent && !v.manager_contacted)) with
    | none =>
      rw [htgt] at hv'
      exact h v hv' hvu
    | some t =>
      rw [htgt] at hv'
      obtain ⟨w, hw, rfl⟩ := List.mem_map.mp hv'
      by_cases hc : (w.id == t.id) = true
      · rw [if_pos hc] at hvu ⊢
        exact h w hw hvu
      · rw [if_neg hc] at hvu ⊢
        exact h w hw hvu
  | opMarkUserBlocked uid' =>
    intro v hv hvu
    exact h v hv hvu
  | opMarkUserUnblocked uid' =>
    intro v hv hvu
    exact h v hv hvu
  | opSetSystemSetting key value =>
    intro v hv hvu
    have hv' : v ∈ (set_system_setting db key value).valuations := hv
    unfold set_system_setting at hv'
    split_ifs at hv' <;> exact h v hv' hvu

theorem all_contacted_applyOps (uid : Nat) :
    ∀ (ops : List DbOp) (db : DB),
      (∀ op ∈ ops, isCreateValuationFor uid op = false) →
      (∀ v ∈ db.valuations, v.user_id = uid → v.manager_contacted = true) →
      ∀ v ∈ (applyOps db ops).valuations, v.user_id = uid →
        v.manager_contacted = true := by
  intro ops
  induction ops with
  | nil => intro db _ h; exact h
  | cons op rest ih =>
    intro db hops h
    exact ih (applyOp db op)
      (fun o ho => hops o (List.mem_cons_of_mem _ ho))
      (all_contacted_applyOp uid db op (hops op (List.mem_cons_self _ _)) h)

/-! ## Claim theorems -/

/-- C7: for every report produced by the valuation generator (draws in
their documented ranges), `price_low` is a multiple of ten within
[1100, 3500], `price_high ≥ price_low + 500` (the minimum offset), and
`price_high ≤ 4500` (the ceiling at which `price_high` is capped). -/
theorem c7_price_bounds (username : String) (d : RandomDraws)
    (h1 : 1100 ≤ d.lowSample) (h2 : d.lowSample ≤ 3500)
    (h3 : 500 ≤ d.offset) (h4 : d.offset ≤ 1500) :
    10 ∣ (get_valuation_data username d).price_low ∧
    1100 ≤ (get_valuation_data username d).price_low ∧
    (get_valuation_data username d).price_low ≤ 3500 ∧
    (get_valuation_data username d).price_low + 500 ≤
      (get_valuation_data username d).price_high ∧
    (get_valuation_data username d).price_high ≤ 4500 := by
  have hc := pyRound10_spec d.lowSample
  dsimp only [get_valuation_data]
  split_ifs <;> refine ⟨?_, ?_, ?_, ?_, ?_⟩ <;> omega

/-- C7 witness: the bounds at concrete draws. -/
theorem c7_price_bounds_witness :
    ((1100 : Int) ≤ drawsC7.lowSample ∧ drawsC7.lowSample ≤ 3500 ∧
      (500 : Int) ≤ drawsC7.offset ∧ drawsC7.offset ≤ 1500) ∧
    (10 ∣ (get_valuation_data "alice" drawsC7).price_low ∧
      1100 ≤ (get_valuation_data "alice" drawsC7).price_low ∧
      (get_valuation_data "alice" drawsC7).price_low ≤ 3500 ∧
      (get_valuation_data "alice" drawsC7).price_low + 500 ≤
        (get_valuation_data "alice" drawsC7).price_high ∧
      (get_valuation_data "alice" drawsC7).price_high ≤ 4500) :=
  ⟨by decide,
   c7_price_bounds "alice" drawsC7 (by decide) (by decide) (by decide)
     (by decide)⟩

/-- C9: each reminder setting falls back independently — any store whose
check-interval value does not parse as an integer yields interval 1 with a
warning (and the tick computes with that default), and any store whose
reminder-delay value does not parse yields delay 15 with a warning (and
the check runs with that default); neither fallback needs the other value
to be broken. -/
theorem c9_parse_fallback :
    (∀ (db : DB) (s : String),
      settingLookup db.settings "reminder_check_interval" = some s →
      pyParseInt s = none →
      parse_interval db = (1, true) ∧
      ∀ last now, (reminderTick db last now).interval_minutes = 1 ∧
        (reminderTick db last now).warned = true) ∧
    (∀ (db : DB) (t : String),
      settingLookup db.settings "reminder_delay_minutes" = some t →
      pyParseInt t = none →
      parse_delay db = (15, true) ∧
      ∀ now, check_pending_reminders db now
        = get_users_for_reminder db 15 now) := by
  constructor
  · intro db s hs hns
    have hi : parse_interval db = (1, true) := by
      unfold parse_interval get_system_setting
      rw [hs, Option.getD_some, hns]
    refine ⟨hi, ?_⟩
    intro last now
    unfold reminderTick
    rw [hi]
    split_ifs <;> exact ⟨rfl, rfl⟩
  · intro db t ht hnt
    have hd : parse_delay db = (15, true) := by
      unfold parse_delay get_system_setting
      rw [ht, Option.getD_some, hnt]
    refine ⟨hd, ?_⟩
    intro now
    unfold check_pending_reminders
    rw [hd]

/-- C9 witness: the interval fallback fires on a store where only the
interval is broken (`"abc"`, delay `"15"`), and the delay fallback fires
on a store where only the delay is broken (interval `"1"`, `"15.0"`). -/
theorem c9_parse_fallback_witness :
    (settingLookup dbC9a.settings "reminder_check_interval" = some "abc" ∧
      pyParseInt "abc" = none ∧
      settingLookup dbC9b.settings "reminder_delay_minutes" = some "15.0" ∧
      pyParseInt "15.0" = none) ∧
    (parse_interval dbC9a = (1, true) ∧
      (reminderTick dbC9a none 0).interval_minutes = 1 ∧
      (reminderTick dbC9a none 0).warned = true ∧
      parse_delay dbC9b = (15, true) ∧
      check_pending_reminders dbC9b 0
        = get_users_for_reminder dbC9b 15 0) := by
  have hi := c9_parse_fallback.1 dbC9a "abc" (by decide) (by decide)
  have hd := c9_parse_fallback.2 dbC9b "15.0" (by decide) (by decide)
  exact ⟨⟨by decide, by decide, by decide, by decide⟩,
    hi.1, (hi.2 none 0).1, (hi.2 none 0).2, hd.1, hd.2 0⟩

/-- C10 as stated is too strong: a non-200 response yields `false` even
when its body carries a profile marker, so `false` does not only arise
from a response lacking the markers. -/
theorem c10_counterexample :
    check_username_exists (.resp 500 "tgme_page_title") = false ∧
    containsSub "tgme_page_title" "tgme_page_title" = true := by decide

/-- C10 amended: a transport exception always yields `true` (the handle is
treated as existing and the appraisal proceeds), and `false` arises
exactly from a received HTTP response that has a non-200 status or whose
body lacks both profile markers. -/
theorem c10_error_treated_as_existing (r : HttpFetch) :
    check_username_exists .err = true ∧
    (check_username_exists r = false ↔
      ∃ status html, r = .resp status html ∧
        (status ≠ 200 ∨
          (containsSub html "tgme_page_photo" = false ∧
           containsSub html "tgme_page_title" = false))) := by
  refine ⟨rfl, ?_⟩
  cases r with
  | err => simp [check_username_exists]
  | resp status html =>
    by_cases h : status = 200
    · subst h
      have hval : check_username_exists (.resp 200 html)
          = (containsSub html "tgme_page_photo" ||
             containsSub html "tgme_page_title") := by
        simp [check_username_exists]
      rw [hval, Bool.or_eq_false_iff]
      constructor
      · intro hm
        exact ⟨200, html, rfl, Or.inr hm⟩
      · rintro ⟨st, h2, heq, hor⟩
        cases heq
        cases hor with
        | inl hne => exact absurd rfl hne
        | inr hm => exact hm
    · have hval : check_username_exists (.resp status html) = false := by
        simp [check_username_exists, h]
      rw [hval]
      constructor
      · intro _
        exact ⟨status, html, rfl, Or.inl h⟩
      · intro _
        rfl

/-- C3 as stated fails: `add_event` called for a user with no row inserts
the event but creates no user row — afterwards the user table is still
empty while an event references user 7. -/
theorem c3_counterexample :
    (add_event dbEmpty 7 "first_start" [] 0).users = [] ∧
    ∃ e ∈ (add_event dbEmpty 7 "first_start" [] 0).events, e.user_id = 7 := by
  decide

/-- C3 amended: `add_event` appends the event row referencing `user_id`
and only updates `last_activity` of an already-existing user row; it never
creates a user row (the set of user ids is unchanged), so an event can
reference a nonexistent user unless the caller created the row first. -/
theorem c3_no_user_creation (db : DB) (uid : Nat) (ty : String)
    (md : List (String × String)) (now : Int) :
    (add_event db uid ty md now).users.map UserRow.user_id
      = db.users.map UserRow.user_id ∧
    (add_event db uid ty md now).events
      = db.events ++ [{ id := db.next_event_id, user_id := uid,
                        event_type := ty, timestamp := now,
                        metadata := md }] ∧
    ∀ u ∈ (add_event db uid ty md now).users, u.user_id = uid →
      u.last_activity = now := by
  refine ⟨?_, rfl, ?_⟩
  · refine map_user_id_of_update db.users _ (fun u => ?_)
    by_cases hb : u.user_id = uid <;> simp [hb]
  · intro u hu h
    simp only [add_event, List.mem_map] at hu
    obtain ⟨w, hw, rfl⟩ := hu
    by_cases hb : w.user_id = uid
    · simp [hb]
    · simp only [beq_iff_eq, hb, if_false] at h

/-- C1 as stated fails: with the Settings Store's enabled flag set to
`"false"`, the tick still performs the reminder check — the loop never
reads that flag. -/
theorem c1_counterexample :
    settingLookup dbC1.settings "reminder_enabled" = some "false" ∧
    (reminderTick dbC1 none 0).didCheck = true := by
  decide

/-- C1 amended: each loop iteration re-reads only the check-interval from
the Settings Store — the check decision ignores the store's
`reminder_enabled` value entirely; the enabled flag is consulted once, at
startup, from process configuration, and when false the task performs no
iteration at all; when enabled the loop produces one result per tick
instant (terminating only on cancellation), checking exactly on the first
iteration or when the elapsed time reaches the current interval. -/
theorem c1_enabled_not_reread :
    (∀ db times, reminder_task_ticks false db times = []) ∧
    (∀ db last now v,
      (reminderTick (set_system_setting db "reminder_enabled" v) last
          now).didCheck
        = (reminderTick db last now).didCheck) ∧
    (∀ db (last : Option Int) now, (reminderTick db last now).didCheck =
      reminderShouldCheck db last now) ∧
    (∀ db times, (reminder_task_ticks true db times).length
      = times.length) := by
  refine ⟨?_, ?_, ?_, ?_⟩
  · intro db times
    rfl
  · intro db last now v
    have hp : parse_interval (set_system_setting db "reminder_enabled" v)
        = parse_interval db := by
      unfold parse_interval get_system_setting
      rw [settingLookup_set_ne db "reminder_enabled" v
        "reminder_check_interval" (by decide)]
    have hsc : reminderShouldCheck
          (set_system_setting db "reminder_enabled" v) last now
        = reminderShouldCheck db last now := by
      unfold reminderShouldCheck
      cases last <;> simp [hp]
    by_cases h : reminderShouldCheck db last now <;>
      simp [reminderTick, hsc, h]
  · intro db last now
    by_cases h : reminderShouldCheck db last now <;> simp [reminderTick, h]
  · intro db times
    simp only [reminder_task_ticks, if_true]
    exact tickSeq_length db times none

/-- C5: after `mark_manager_contacted(user_id)` every valuation of that
user has `manager_contacted = true`, and after any further sequence of
database operations that contains no `create_valuation` for that user, no
reminder check at any time or delay selects that user. -/
theorem c5_contacted_never_selected (db : DB) (uid : Nat)
    (ops : List DbOp)
    (hops : ∀ op ∈ ops, isCreateValuationFor uid op = false) :
    (∀ v ∈ (mark_manager_contacted db uid).valuations, v.user_id = uid →
      v.manager_contacted = true) ∧
    (∀ delay now r, r ∈ get_users_for_reminder
        (applyOps (mark_manager_contacted db uid) ops) delay now →
      r.user_id ≠ uid) := by
  refine ⟨all_contacted_mark db uid, ?_⟩
  exact not_selected_of_all_contacted _ uid
    (all_contacted_applyOps uid ops (mark_manager_contacted db uid) hops
      (all_contacted_mark db uid))

/-- C5 witness: user 7 with two open valuations is never selected after
`mark_manager_contacted`, across a concrete operation sequence without a
fresh valuation for user 7. -/
theorem c5_contacted_never_selected_witness :
    (∀ op ∈ opsC5, isCreateValuationFor 7 op = false) ∧
    ((∀ v ∈ (mark_manager_contacted dbC5 7).valuations, v.user_id = 7 →
      v.manager_contacted = true) ∧
    (∀ delay now r, r ∈ get_users_for_reminder
        (applyOps (mark_manager_contacted dbC5 7) opsC5) delay now →
      r.user_id ≠ 7)) :=
  ⟨by decide, c5_contacted_never_selected dbC5 7 opsC5 (by decide)⟩

/-- C6 as stated fails: a user blocked before the run is excluded from the
snapshot entirely, so `total` is 0 (not the population size 1) and the
pre-blocked user is not counted in the `blocked` bucket. -/
theorem c6_counterexample :
    dbC6.users.length = 1 ∧
    (dbC6.users.filter (fun u => u.is_bot_blocked)).length = 1 ∧
    (execute_broadcast dbC6 (fun _ => .delivered)).2.total = 0 ∧
    (execute_broadcast dbC6 (fun _ => .delivered)).2.blocked = 0 := by
  decide

/-- C6 amended: `total` equals the number of users not blocked at snapshot
time (users blocked beforehand are excluded and land in no bucket), and
every attempted recipient falls in exactly one bucket, so
`success + blocked + failed = total`; per-recipient failures are
classified, never raised. -/
theorem c6_broadcast_counts (db : DB) (outcomes : Nat → SendOutcome) :
    (execute_broadcast db outcomes).2.total
      = (db.users.filter (fun u => !u.is_bot_blocked)).length ∧
    (execute_broadcast db outcomes).2.success +
      (execute_broadcast db outcomes).2.blocked +
      (execute_broadcast db outcomes).2.failed
      = (execute_broadcast db outcomes).2.total := by
  constructor
  · show (get_active_users_for_broadcast db).length = _
    unfold get_active_users_for_broadcast
    exact List.length_insertionSort _ _
  · have h := broadcastLoop_sum outcomes (get_active_users_for_broadcast db)
      db 0 0 0
    show (broadcastLoop outcomes (get_active_users_for_broadcast db) db
          0 0 0).2.1 +
        (broadcastLoop outcomes (get_active_users_for_broadcast db) db
          0 0 0).2.2.1 +
        (broadcastLoop outcomes (get_active_users_for_broadcast db) db
          0 0 0).2.2.2
      = (get_active_users_for_broadcast db).length
    omega

/-- C8: on the 25-user store, page 2 of size 10 returns users 11–20, page
3 returns users 21–25, and page 4 returns an empty list; in general
`total_pages` is the ceiling of rows over page size and any page beyond
`total_pages` yields an empty result (not an error). -/
theorem c8_users_list_pagination (db : DB) (page page_size : Nat)
    (hp : 1 ≤ page) (hs : 1 ≤ page_size) :
    ((analytics_get_users_list dbC8 2 10).users.map UserRow.user_id
      = [11, 12, 13, 14, 15, 16, 17, 18, 19, 20]) ∧
    ((analytics_get_users_list dbC8 3 10).users.map UserRow.user_id
      = [21, 22, 23, 24, 25]) ∧
    ((analytics_get_users_list dbC8 4 10).users = []) ∧
    ((analytics_get_users_list db page page_size).total_pages
      = (get_total_users db + page_size - 1) / page_size) ∧
    ((analytics_get_users_list db page page_size).total_pages < page →
      (analytics_get_users_list db page page_size).users = []) := by
  refine ⟨by decide, by decide, by decide, rfl, ?_⟩
  intro hlt
  obtain ⟨p, rfl⟩ : ∃ p, page = p + 1 := ⟨page - 1, by omega⟩
  have hps : 0 < page_size := hs
  have hlt2 : (db.users.length + page_size - 1) / page_size < p + 1 := hlt
  rw [Nat.div_lt_iff_lt_mul hps] at hlt2
  have hlen : db.users.length ≤ p * page_size := by
    rw [Nat.succ_mul] at hlt2
    omega
  show ((List.insertionSort _ db.users).drop (p * page_size)).take
      page_size = []
  rw [List.drop_eq_nil_of_le, List.take_nil]
  rw [List.length_insertionSort]
  omega

/-- C8 witness: the general bound applied at page 4, size 10 on the
25-user store. -/
theorem c8_users_list_pagination_witness :
    (1 ≤ 4 ∧ 1 ≤ 10 ∧ (analytics_get_users_list dbC8 4 10).total_pages < 4) ∧
    (analytics_get_users_list dbC8 4 10).users = [] :=
  ⟨⟨by decide, by decide, by decide⟩,
   (c8_users_list_pagination dbC8 4 10 (by decide) (by decide)).2.2.2.2
     (by decide)⟩

/-- C2: the reminder check selects a user iff the user is not blocked and
owns a valuation with both flags false created more than `delay` minutes
before `now`; at most one row per user is returned, and the returned
valuation is a qualifying one of maximal valuation date (the most recent
qualifying one). -/
theorem c2_reminder_selection (db : DB) (now delay : Int) (u : UserRow)
    (hu : u ∈ db.users) (hnd : (db.users.map UserRow.user_id).Nodup) :
    ((∃ r ∈ get_users_for_reminder db delay now, r.user_id = u.user_id) ↔
      (u.is_bot_blocked = false ∧ ∃ v ∈ db.valuations,
        v.user_id = u.user_id ∧ v.valuation_date < now - delay ∧
        v.manager_contacted = false ∧ v.reminder_sent = false)) ∧
    (∀ r ∈ get_users_for_reminder db delay now, r.user_id = u.user_id →
      ∃ v ∈ db.valuations, v.user_id = u.user_id ∧
        qualifies now delay v = true ∧ r.valuation_id = v.id ∧
        r.valuation_date = v.valuation_date ∧
        ∀ w ∈ db.valuations, w.user_id = u.user_id →
          qualifies now delay w = true →
          w.valuation_date ≤ v.valuation_date) ∧
    ((get_users_for_reminder db delay now).map ReminderRow.user_id).Nodup := by
  have hinj := List.inj_on_of_nodup_map hnd
  refine ⟨⟨?_, ?_⟩, ?_, ?_⟩
  · rintro ⟨r, hr, hru⟩
    obtain ⟨u', hu', hf⟩ := List.mem_filterMap.mp hr
    obtain ⟨hb', v, hl, rfl⟩ := (reminderRowFor_some_iff db delay now u'
      r).mp hf
    obtain rfl : u' = u := hinj hu' hu hru
    have hvf := (latestValuation_spec _ _ hl).1
    rw [List.mem_filter] at hvf
    obtain ⟨hv, hcond⟩ := hvf
    rw [Bool.and_eq_true, beq_iff_eq] at hcond
    obtain ⟨hvu, hq⟩ := hcond
    obtain ⟨h1, h2, h3⟩ := (qualifies_iff now delay v).mp hq
    exact ⟨hb', v, hv, hvu, h1, h2, h3⟩
  · rintro ⟨hb, v, hv, hvu, h1, h2, h3⟩
    have hvf : v ∈ db.valuations.filter (fun v =>
        v.user_id == u.user_id && qualifies now delay v) := by
      rw [List.mem_filter, Bool.and_eq_true, beq_iff_eq]
      exact ⟨hv, hvu, (qualifies_iff now delay v).mpr ⟨h1, h2, h3⟩⟩
    have hne : db.valuations.filter (fun v =>
        v.user_id == u.user_id && qualifies now delay v) ≠ [] := by
      intro he
      rw [he] at hvf
      cases hvf
    obtain ⟨w, hw⟩ := latestValuation_isSome _ hne
    refine ⟨⟨u.user_id, u.username, w.id, w.valuation_date⟩, ?_, rfl⟩
    exact List.mem_filterMap.mpr ⟨u, hu,
      (reminderRowFor_some_iff db delay now u _).mpr ⟨hb, w, hw, rfl⟩⟩
  · intro r hr hru
    obtain ⟨u', hu', hf⟩ := List.mem_filterMap.mp hr
    obtain ⟨hb', v, hl, rfl⟩ := (reminderRowFor_some_iff db delay now u'
      r).mp hf
    obtain rfl : u' = u := hinj hu' hu hru
    obtain ⟨hvf, hmax⟩ := latestValuation_spec _ _ hl
    rw [List.mem_filter] at hvf
    obtain ⟨hv, hcond⟩ := hvf
    rw [Bool.and_eq_true, beq_iff_eq] at hcond
    refine ⟨v, hv, hcond.1, hcond.2, rfl, rfl, ?_⟩
    intro w hw hwu hwq
    refine hmax w ?_
    rw [List.mem_filter, Bool.and_eq_true, beq_iff_eq]
    exact ⟨hw, hwu, hwq⟩
  · exact List.Nodup.sublist (reminder_map_sublist db delay now) hnd

/-- C2 witness: the characterization at a concrete one-user store with an
aged open valuation. -/
theorem c2_reminder_selection_witness :
    (userC2 ∈ dbC2.users ∧ (dbC2.users.map UserRow.user_id).Nodup) ∧
    (((∃ r ∈ get_users_for_reminder dbC2 5 100,
        r.user_id = userC2.user_id) ↔
      (userC2.is_bot_blocked = false ∧ ∃ v ∈ dbC2.valuations,
        v.user_id = userC2.user_id ∧ v.valuation_date < 100 - 5 ∧
        v.manager_contacted = false ∧ v.reminder_sent = false)) ∧
    (∀ r ∈ get_users_for_reminder dbC2 5 100, r.user_id = userC2.user_id →
      ∃ v ∈ dbC2.valuations, v.user_id = userC2.user_id ∧
        qualifies 100 5 v = true ∧ r.valuation_id = v.id ∧
        r.valuation_date = v.valuation_date ∧
        ∀ w ∈ dbC2.valuations, w.user_id = userC2.user_id →
          qualifies 100 5 w = true →
          w.valuation_date ≤ v.valuation_date) ∧
    ((get_users_for_reminder dbC2 5 100).map ReminderRow.user_id).Nodup) :=
  ⟨⟨by decide, by decide⟩,
   c2_reminder_selection dbC2 100 5 userC2 (by decide) (by decide)⟩

/-- C4 as stated fails: for the mixed-case handle `"Alice"` the first run
returns the report with username `"@Alice"` while the second run's cache
hit rebuilds the username from the case-folded key, returning `"@alice"` —
the two reports are not equal field-for-field. -/
theorem c4_counterexample :
    (evaluate_username_cached [] "Alice" drawsC4a).1.username = "@Alice" ∧
    (evaluate_username_cached (evaluate_username_cached [] "Alice"
        drawsC4a).2 "Alice" drawsC4b).1.username = "@alice" ∧
    (evaluate_username_cached (evaluate_username_cached [] "Alice"
        drawsC4a).2 "Alice" drawsC4b).1
      ≠ (evaluate_username_cached [] "Alice" drawsC4a).1 := by
  decide

/-- C4 amended: two sequential runs agree on every field except the
username — the second run returns the first run's report with its username
replaced by the normalized (case-folded, marker-stripped) form; in
particular the two reports are fully identical whenever the stripped
handle is already lower-case. -/
theorem c4_cache_roundtrip (cache : ValuationCache) (handle : String)
    (d1 d2 : RandomDraws)
    (hmiss : cacheLookup cache (normKey handle) = none) :
    ((evaluate_username_cached (evaluate_username_cached cache handle
          d1).2 handle d2).1
      = setUsername (evaluate_username_cached cache handle d1).1
          ("@" ++ normKey handle)) ∧
    (strLower (lstripAt handle) = lstripAt handle →
      (evaluate_username_cached (evaluate_username_cached cache handle
            d1).2 handle d2).1
        = (evaluate_username_cached cache handle d1).1) := by
  have hget1 : get_valuation cache (prefixAt handle) = none := by
    unfold get_valuation
    rw [normKey_prefixed, hmiss]
  have hrun1 : evaluate_username_cached cache handle d1
      = (get_valuation_data (prefixAt handle) d1,
         save_valuation cache (get_valuation_data (prefixAt handle) d1)) := by
    unfold evaluate_username_cached
    rw [hget1]
  have husername : (get_valuation_data (prefixAt handle) d1).username
      = "@" ++ lstripAt handle := by
    show "@" ++ lstripAt (prefixAt handle) = _
    rw [lstripAt_prefixed]
  have hkey : normKey (get_valuation_data (prefixAt handle) d1).username
      = normKey handle := by
    rw [husername]
    unfold normKey
    rw [lstripAt_append_at, lstripAt_lstripAt]
  have hsave : save_valuation cache (get_valuation_data (prefixAt handle) d1)
      = cache ++ [(normKey handle,
          rowOfReport (get_valuation_data (prefixAt handle) d1))] := by
    unfold save_valuation
    rw [hkey, hmiss]
  have hget2 : get_valuation (cache ++ [(normKey handle,
      rowOfReport (get_valuation_data (prefixAt handle) d1))])
      (prefixAt handle)
      = some (setUsername (get_valuation_data (prefixAt handle) d1)
          ("@" ++ normKey handle)) := by
    unfold get_valuation
    rw [normKey_prefixed, cacheLookup_append_of_none _ _ _ hmiss]
    rfl
  have hmain : (evaluate_username_cached (evaluate_username_cached cache
      handle d1).2 handle d2).1
      = setUsername (evaluate_username_cached cache handle d1).1
          ("@" ++ normKey handle) := by
    rw [hrun1]
    show (evaluate_username_cached
      (save_valuation cache (get_valuation_data (prefixAt handle) d1))
      handle d2).1 = _
    unfold evaluate_username_cached
    rw [hsave, hget2]
  refine ⟨hmain, fun hlow => ?_⟩
  rw [hmain, hrun1]
  show setUsername (get_valuation_data (prefixAt handle) d1)
      ("@" ++ normKey handle) = _
  have hsame : "@" ++ normKey handle
      = (get_valuation_data (prefixAt handle) d1).username := by
    rw [husername]
    unfold normKey
    rw [hlow]
  rw [hsame]
  rfl

/-- C4 witness: the round-trip equality at a concrete lower-case handle
and empty cache. -/
theorem c4_cache_roundtrip_witness :
    cacheLookup [] (normKey "alice") = none ∧
    (evaluate_username_cached (evaluate_username_cached [] "alice"
        drawsC4a).2 "alice" drawsC4b).1
      = setUsername (evaluate_username_cached [] "alice" drawsC4a).1
          ("@" ++ normKey "alice") :=
  ⟨rfl, (c4_cache_roundtrip [] "alice" drawsC4a drawsC4b rfl).1⟩

end Cryptobot
